import Mathlib

/-!
Verification development for the `semaphore-security-scan` repository.

The repository contains three independent Python command-line scripts:

* `src/scripts/extract-images.py`  — the Image Extractor,
* `src/scripts/generate-report.py` — the Report Generator,
* `src/scripts/download-report-api.py` — the Report Fetcher.

Each script is embedded shallowly below: its pure data transformations become
Lean functions, the ambient file system, environment and network are passed
explicitly, and process behaviour (exit code, stdout, stderr) is returned as a
record.  Python strings are modelled as Lean `String`s; Python's string
comparison (lexicographic on code points) is modelled by the executable
comparison `strle`; Python dictionaries read through `.get` chains are modelled
by `Option`-valued fields (an absent intermediate mapping collapses to the
absent leaf, which is read-equivalent); insertion-ordered Python dicts used as
counters are modelled by association lists.
-/

/-! ## Python string order

Python compares strings lexicographically by Unicode code point.  `charListLe`
is a structurally recursive boolean implementation of that order on the
underlying character lists, so that the kernel can evaluate it on literals. -/

def charListLe : List Char → List Char → Bool
  | [], _ => true
  | _ :: _, [] => false
  | a :: as, b :: bs =>
    if a < b then true
    else if b < a then false
    else charListLe as bs

/-- Python's `a <= b` on strings. -/
def strle (a b : String) : Bool := charListLe a.data b.data

/-- `strle` as a binary relation, used as the sorting relation of `sorted(...)`
on lists of strings. -/
def pyLe (a b : String) : Prop := strle a b = true

instance : DecidableRel pyLe := fun a b => inferInstanceAs (Decidable (strle a b = true))

/-! ## Image Extractor (`src/scripts/extract-images.py`)

Data model for the configuration trees the script reads.  `Option String`
fields model dictionary keys that may be absent; Python truthiness of such a
value (`if x:`) is `optTruthy`. -/

/-- Python truthiness of an optional string value (`None` and `""` are falsy). -/
def optTruthy : Option String → Bool
  | none => false
  | some s => !(s == "")

/-- The part of a subchart `values.yaml` read by the script: its `image` key. -/
structure SubValues where
  image : Option String
deriving DecidableEq

/-- One entry of `sorted(charts_path.iterdir())`: a directory entry of the
`charts` directory, carrying the parsed `values.yaml` when that file exists. -/
structure DirEntry where
  name : String
  isDir : Bool
  values : Option SubValues
deriving DecidableEq

/-- A sidecar configuration block (`global.sidecarEncryptor` / `global.statsd`). -/
structure SidecarCfg where
  image : Option String
  imageTag : Option String
deriving DecidableEq

/-- The parts of the `global` section read by the script.  Nested `.get`
chains such as `global.database.local.version` are collapsed to one optional
leaf, which is read-equivalent. -/
structure GlobalVals where
  imageRegistry : Option String
  sidecarEncryptor : SidecarCfg
  statsd : SidecarCfg
  databaseLocalVersion : Option String
  rabbitmqLocalVersion : Option String
  redisLocalVersion : Option String
  artifactsLocalVersion : Option String
  agent : List (String × String)
deriving DecidableEq

/-- The parent `values.yaml`: top-level component entries (mapping a component
name to its optional `imageTag`) plus the `global` section. -/
structure ParentValues where
  components : List (String × Option String)
  global : GlobalVals
deriving DecidableEq

/-- `parent_values.get(subchart_name, {}).get('imageTag')`. -/
def lookupTag (parent : ParentValues) (name : String) : Option String :=
  match parent.components.find? (fun p => p.1 == name) with
  | some p => p.2
  | none => none

/-- Assoc-list lookup modelling `dict.get(key)` on a plain string dict. -/
def lookupStr (d : List (String × String)) (key : String) : Option String :=
  match d.find? (fun p => p.1 == key) with
  | some p => some p.2
  | none => none

/-- The `charts` directory of the chart: whether it exists, and its sorted
directory listing. -/
structure ChartDir where
  chartsDirExists : Bool
  entries : List DirEntry
deriving DecidableEq

/-- The subchart loop of `extract_app_images_from_charts` (lines 40-63):
skip non-directories, subcharts without a `values.yaml`, subcharts whose
values declare no truthy `image`, and subcharts whose parent entry has no
truthy `imageTag`; otherwise emit `registry/image:tag`. -/
def subchartImages (parent : ParentValues) (registry : String) : List DirEntry → List String
  | [] => []
  | e :: rest =>
    let tail := subchartImages parent registry rest
    if e.isDir = false then tail
    else
      match e.values with
      | none => tail
      | some v =>
        match v.image with
        | none => tail
        | some img =>
          if img == "" then tail
          else
            match lookupTag parent e.name with
            | none => tail
            | some tag =>
              if tag == "" then tail
              else (registry ++ "/" ++ img ++ ":" ++ tag) :: tail

/-- The sidecar blocks of `extract_app_images_from_charts` (lines 65-76):
emit `registry/image:imageTag` when both keys are truthy. -/
def sidecarPart (sc : SidecarCfg) (registry : String) : List String :=
  if optTruthy sc.image && optTruthy sc.imageTag then
    [registry ++ "/" ++ sc.image.getD "" ++ ":" ++ sc.imageTag.getD ""]
  else []

/-- `extract_app_images_from_charts` (lines 30-78): collect subchart images,
then the two sidecar images, and return `sorted(images)`. -/
def extract_app_images_from_charts (chart : ChartDir) (parent : ParentValues)
    (registry : String) : List String :=
  if chart.chartsDirExists = false then []
  else
    let images := subchartImages parent registry chart.entries
      ++ sidecarPart parent.global.sidecarEncryptor registry
      ++ sidecarPart parent.global.statsd registry
    List.insertionSort pyLe images

/-- The fixed-version infrastructure images plus the two unconditional init
images (`extract_infra_images`, lines 83-108). -/
def infraBaseImages (g : GlobalVals) : List String :=
  (if optTruthy g.databaseLocalVersion then
    ["postgres:" ++ g.databaseLocalVersion.getD ""] else [])
  ++ (if optTruthy g.rabbitmqLocalVersion then
    ["rabbitmq:" ++ g.rabbitmqLocalVersion.getD ""] else [])
  ++ (if optTruthy g.redisLocalVersion then
    ["redis:" ++ g.redisLocalVersion.getD ""] else [])
  ++ (if optTruthy g.artifactsLocalVersion then
    ["minio/minio:" ++ g.artifactsLocalVersion.getD ""] else [])
  ++ ["postgres:13", "curlimages/curl:latest"]

/-- The default-agent block of `extract_infra_images` (lines 110-118):
`if not agent_config:` append the hardcoded default; otherwise append
`agent_config.get('defaultImage')` only when that value is truthy. -/
def infraAgentImages (g : GlobalVals) : List String :=
  if g.agent.isEmpty then ["docker.io/erlang:26"]
  else
    match lookupStr g.agent ("defaultImage") with
    | some s => if s == "" then [] else [s]
    | none => []

/-- `extract_infra_images` (lines 81-120): the appends of the function body,
in source order.  Note the list is returned as built - it is never sorted. -/
def extract_infra_images (parent : ParentValues) : List String :=
  infraBaseImages parent.global ++ infraAgentImages parent.global

/-- Outcome of running one of the scripts as a process: exit code and the
lines printed to the two standard streams (one list element per print call). -/
structure CliOutcome where
  exitCode : Nat
  stdout : List String
  stderr : List String
deriving DecidableEq

/-- The chart path handed to `extract-images.py`: whether the path exists,
the parsed parent `values.yaml` when present, and the `charts` directory. -/
structure ChartFs where
  pathExists : Bool
  valuesYaml : Option ParentValues
  chart : ChartDir
deriving DecidableEq

/-- `main` of `extract-images.py` (lines 123-157). -/
def extract_main (argv : List String) (fs : ChartFs) : CliOutcome :=
  if argv.length ≠ 2 then
    { exitCode := 1, stdout := [],
      stderr := ["Usage: " ++ argv.headD "" ++ " <path-to-helm-chart-directory>"] }
  else
    let chartPath := argv.getD 1 ""
    if fs.pathExists = false then
      { exitCode := 1, stdout := [],
        stderr := ["Error: Path not found: " ++ chartPath] }
    else
      match fs.valuesYaml with
      | none =>
        { exitCode := 1, stdout := [],
          stderr := ["Error: values.yaml not found: " ++ chartPath ++ "/values.yaml"] }
      | some parent =>
        let registry := parent.global.imageRegistry.getD ("ghcr.io/semaphoreio")
        let app := extract_app_images_from_charts fs.chart parent registry
        let infra := extract_infra_images parent
        { exitCode := 0,
          stdout := ["# Application Images"] ++ app
            ++ ["", "# Infrastructure Images"] ++ infra
            ++ ["", "# Total: " ++ toString app.length ++ " app images + "
                ++ toString infra.length ++ " infrastructure images = "
                ++ toString (app.length + infra.length) ++ " images"],
          stderr := [] }

/-! ## Report Generator (`src/scripts/generate-report.py`) -/

/-- One vulnerability object of a Trivy result: its optional `Severity` key. -/
structure Vuln where
  severity : Option String
deriving DecidableEq

/-- One entry of the `Results` list: its `Vulnerabilities` list
(`result.get('Vulnerabilities', [])` makes an absent key an empty list). -/
structure ScanEntry where
  vulnerabilities : List Vuln
deriving DecidableEq

/-- A parsed scan document.  `none` models a falsy document (load failure
returns `{}`) or a document without a `Results` key, both of which
`analyze_vulnerabilities` maps to `(0, 0, {})`. -/
abbrev ScanDoc := Option (List ScanEntry)

/-- `vuln.get('Severity', 'UNKNOWN')`. -/
def sevLabel (v : Vuln) : String := v.severity.getD ("UNKNOWN")

/-- `defaultdict(int)` increment `d[s] += 1` on an insertion-ordered dict,
modelled as an association list. -/
def bump : List (String × Nat) → String → List (String × Nat)
  | [], s => [(s, 1)]
  | (k, n) :: rest, s =>
    if k = s then (k, n + 1) :: rest else (k, n) :: bump rest s

/-- Reading an entry of the severity dict, `0` when the key is absent. -/
def dictGet : List (String × Nat) → String → Nat
  | [], _ => 0
  | (k, n) :: rest, s => if k = s then n else dictGet rest s

/-- The body of the vulnerability loop of `analyze_vulnerabilities`
(lines 53-60): `if severity == 'HIGH'` / `elif severity == 'CRITICAL'`,
then `vuln_details[severity] += 1`.  The accumulator is
`(high_count, critical_count, vuln_details)`. -/
def analyzeStep (acc : Nat × Nat × List (String × Nat)) (v : Vuln) :
    Nat × Nat × List (String × Nat) :=
  let s := sevLabel v
  let hc : Nat × Nat :=
    if s = "HIGH" then (acc.1 + 1, acc.2.1)
    else if s = "CRITICAL" then (acc.1, acc.2.1 + 1)
    else (acc.1, acc.2.1)
  (hc.1, hc.2, bump acc.2.2 s)

/-- All findings of a document, in the order of the nested
`for result in Results / for vuln in Vulnerabilities` loops. -/
def docFindings : ScanDoc → List Vuln
  | none => []
  | some results => results.flatMap (fun r => r.vulnerabilities)

/-- `analyze_vulnerabilities` (lines 40-62), returning
`(high_count, critical_count, vuln_details)`. -/
def analyze_vulnerabilities (doc : ScanDoc) : Nat × Nat × List (String × Nat) :=
  match doc with
  | none => (0, 0, [])
  | some results => ((some results : ScanDoc) |> docFindings).foldl analyzeStep (0, 0, [])

/-- Number of findings of a document carrying a given severity label. -/
def countSev (doc : ScanDoc) (s : String) : Nat :=
  (docFindings doc).countP (fun v => sevLabel v == s)

/-- Removes every occurrence of `.json` (`filename.replace('.json', '')`
removes all occurrences, not just an extension), scanning left to right. -/
def stripJson : List Char → List Char
  | '.' :: 'j' :: 's' :: 'o' :: 'n' :: rest => stripJson rest
  | c :: rest => c :: stripJson rest
  | [] => []

/-- `str.replace(c, r, count)` for a single-character pattern: replace the
first `count` occurrences of `c` by `r`. -/
def replaceCharCount (c r : Char) : Nat → List Char → List Char
  | _, [] => []
  | 0, l => l
  | Nat.succ k, x :: xs =>
    if x = c then r :: replaceCharCount c r k xs
    else x :: replaceCharCount c r (Nat.succ k) xs

/-- `extract_image_name` (lines 31-37): drop `.json`, then
`.replace('_', '/', 2).replace('_', ':', 1)`. -/
def extract_image_name (filename : String) : String :=
  String.mk (replaceCharCount '_' ':' 1 (replaceCharCount '_' '/' 2 (stripJson filename.data)))

/-- One `*.json` file of the scan-results directory: its file name and its
parsed content. -/
structure ScanFile where
  name : String
  doc : ScanDoc
deriving DecidableEq

/-- `sorted(scan_files)` compares paths sharing the directory prefix, which is
ordering by file name. -/
def fileLe (f g : ScanFile) : Prop := strle f.name g.name = true

instance : DecidableRel fileLe := fun f g => inferInstanceAs (Decidable (strle f.name g.name = true))

/-- The per-image record appended to `image_results` (lines 91-96). -/
structure ImageResult where
  image : String
  high : Nat
  critical : Nat
  details : List (String × Nat)
deriving DecidableEq

/-- The record built for one scan file (lines 83-96). -/
def buildImageResult (f : ScanFile) : ImageResult :=
  let t := analyze_vulnerabilities f.doc
  { image := extract_image_name f.name, high := t.1, critical := t.2.1, details := t.2.2 }

/-- The sort key `(x['critical'], x['high'])` of the summary sort. -/
def resKey (x : ImageResult) : Nat × Nat := (x.critical, x.high)

/-- Lexicographic order on `Nat × Nat`, the order Python uses on key tuples. -/
def pairLe (a b : Nat × Nat) : Prop := a.1 < b.1 ∨ (a.1 = b.1 ∧ a.2 ≤ b.2)

instance : DecidableRel pairLe :=
  fun a b => inferInstanceAs (Decidable (a.1 < b.1 ∨ (a.1 = b.1 ∧ a.2 ≤ b.2)))

/-- The relation realising `sorted(image_results, key=..., reverse=True)`:
`x` may stand before `y` iff `y`'s key is at most `x`'s key; insertion sort
with this relation is exactly Python's stable descending sort. -/
def resGe (x y : ImageResult) : Prop := pairLe (resKey y) (resKey x)

instance : DecidableRel resGe := fun x y => inferInstanceAs (Decidable (pairLe (resKey y) (resKey x)))

/-- The summary sort of `generate_report` (lines 113-118). -/
def sortImageResults (l : List ImageResult) : List ImageResult :=
  List.insertionSort resGe l

/-- The status cell (line 121). -/
def statusOf (r : ImageResult) : String :=
  if r.critical = 0 ∧ r.high = 0 then "✅ PASS" else "⚠️ REVIEW"

/-- One summary table row (lines 122-124). -/
def summaryRow (r : ImageResult) : String :=
  "| `" ++ r.image ++ "` | " ++ toString r.critical ++ " | " ++ toString r.high
    ++ " | " ++ statusOf r ++ " |"

/-- The relation realising `sorted(details.items(), reverse=True)`: `p` may
stand before `q` iff `q ≤ p` in the lexicographic order on
(severity string, count). -/
def detGe (p q : String × Nat) : Prop :=
  (strle q.1 p.1 = true ∧ q.1 ≠ p.1) ∨ (q.1 = p.1 ∧ q.2 ≤ p.2)

instance : DecidableRel detGe :=
  fun p q => inferInstanceAs (Decidable ((strle q.1 p.1 = true ∧ q.1 ≠ p.1) ∨ (q.1 = p.1 ∧ q.2 ≤ p.2)))

/-- The per-image block of the Detailed Findings section (lines 138-149). -/
def detailBlock (r : ImageResult) : List String :=
  ["#### " ++ r.image, "", "**Vulnerability Breakdown:**", ""]
    ++ (List.insertionSort detGe r.details).map
      (fun p => "- " ++ p.1 ++ ": " ++ toString p.2)
    ++ [""]

/-- Everything `generate_report` does after `sorted(scan_files)`
(lines 79-170), as a function of the sorted file list and the formatted
clock reading. -/
def reportBody (files : List ScanFile) (now : String) : String :=
  let image_results := files.map buildImageResult
  let total_high := (image_results.map (fun r => r.high)).sum
  let total_critical := (image_results.map (fun r => r.critical)).sum
  let header := [
    "# Semaphore Security Scan Report", "",
    "**Generated:** " ++ now,
    "**Total Images Scanned:** " ++ toString image_results.length,
    "**Total Critical Vulnerabilities:** " ++ toString total_critical,
    "**Total High Vulnerabilities:** " ++ toString total_high,
    "", "## Summary", "",
    "| Image | Critical | High | Status |",
    "|-------|----------|------|--------|"]
  let sorted_results := sortImageResults image_results
  let rows := sorted_results.map summaryRow
  let images_with_vulns := sorted_results.filter
    (fun r => decide (0 < r.critical) || decide (0 < r.high))
  let detail :=
    if images_with_vulns.isEmpty then []
    else ["", "## Detailed Findings", "", "### Images Requiring Attention", ""]
      ++ images_with_vulns.flatMap detailBlock
  let recs := [
    "## Recommendations", "",
    "1. **Critical Vulnerabilities**: Prioritize images with CRITICAL vulnerabilities for immediate remediation",
    "2. **High Vulnerabilities**: Schedule updates for images with HIGH vulnerabilities",
    "3. **Regular Scans**: Run this pipeline regularly (e.g., weekly) to catch new vulnerabilities",
    "4. **Image Updates**: Consider updating base images and dependencies",
    "5. **Vulnerability Database**: Ensure Trivy vulnerability database is up to date",
    "", "## Next Steps", "",
    "- Review individual scan result files for detailed vulnerability information",
    "- Create tickets for images requiring updates",
    "- Monitor CVE feeds for newly disclosed vulnerabilities",
    "- Consider implementing automated image rebuilds when vulnerabilities are patched",
    ""]
  String.intercalate ("\n") (header ++ rows ++ detail ++ recs)

/-- The scan-results directory: whether the path exists and the `*.json` glob
result (the glob order is file-system dependent, hence an arbitrary list). -/
structure ReportFs where
  dirExists : Bool
  listing : List ScanFile
deriving DecidableEq

/-- `generate_report` (lines 65-170). -/
def generate_report (fs : ReportFs) (results_dir : String) (now : String) : String :=
  if fs.dirExists = false then
    "Error: Directory " ++ results_dir ++ " does not exist"
  else if fs.listing.isEmpty then "No scan results found"
  else reportBody (List.insertionSort fileLe fs.listing) now

/-- `main` of `generate-report.py` (lines 173-181): wrong argument count
exits 1; otherwise the report string is printed and the process finishes
normally (exit code 0). -/
def generate_report_main (argv : List String) (fs : ReportFs) (now : String) : CliOutcome :=
  if argv.length ≠ 2 then
    { exitCode := 1, stdout := [],
      stderr := ["Usage: " ++ argv.headD "" ++ " <scan-results-directory>"] }
  else
    { exitCode := 0, stdout := [generate_report fs (argv.getD 1 "") now], stderr := [] }

/-! ## Report Fetcher (`src/scripts/download-report-api.py`) -/

/-- The response the artifact endpoint would return to the one request. -/
structure HttpResponse where
  status : Nat
  body : String
deriving DecidableEq

/-- Outcome of running `download_report`: exit code, the two streams, the
number of HTTP requests issued and the file written, if any. -/
structure FetchOutcome where
  exitCode : Nat
  stdout : List String
  stderr : List String
  requests : Nat
  savedFile : Option (String × String)
deriving DecidableEq

/-- `download_report` (lines 14-72).  `token` is
`os.environ.get("SEMAPHORE_API_TOKEN")`; a missing or empty token hits the
`if not api_token` branch, which prints to stdout (plain `print`) and exits 1
before any request.  `raise_for_status` raises on status `>= 400`.  The
preview printing of the saved file is summarised into the success stdout. -/
def download_report (token : Option String) (workflow_id output_file : String)
    (resp : HttpResponse) : FetchOutcome :=
  if optTruthy token = false then
    { exitCode := 1,
      stdout := ["Error: SEMAPHORE_API_TOKEN environment variable not set"],
      stderr := [], requests := 0, savedFile := none }
  else
    let artifact_url := "https://semaphore.hamir.online/artifacts/workflows/"
      ++ workflow_id ++ "/.semaphore/REPORT.md"
    let banner := ["=== Semaphore Report Downloader ===",
      "Workflow ID: " ++ workflow_id,
      "Artifact URL: " ++ artifact_url,
      "Output file: " ++ output_file,
      "", "Downloading report..."]
    if 400 ≤ resp.status then
      { exitCode := 1,
        stdout := banner ++ ["HTTP Error: " ++ toString resp.status,
          "Response: " ++ resp.body],
        stderr := [], requests := 1, savedFile := none }
    else
      { exitCode := 0,
        stdout := banner ++ ["✓ Report downloaded successfully!",
          "  Size: " ++ toString resp.body.length ++ " bytes",
          "  Saved to: " ++ output_file, ""],
        stderr := [], requests := 1, savedFile := some (output_file, resp.body) }

/-! ## Concrete fixtures used by witnesses and counterexamples -/

def emptyGlobal : GlobalVals :=
  { imageRegistry := none,
    sidecarEncryptor := { image := none, imageTag := none },
    statsd := { image := none, imageTag := none },
    databaseLocalVersion := none, rabbitmqLocalVersion := none,
    redisLocalVersion := none, artifactsLocalVersion := none, agent := [] }

def emptyParent : ParentValues := { components := [], global := emptyGlobal }

def agentNoDefaultParent : ParentValues :=
  { components := [], global := { emptyGlobal with agent := [("enabled", "true")] } }

def c5Parent : ParentValues :=
  { components := [("a", some "1.0"), ("b", some "2.0")], global := emptyGlobal }

def c5Chart : ChartDir :=
  { chartsDirExists := true,
    entries := [
      { name := "a", isDir := true, values := some { image := some "img-a" } },
      { name := "b", isDir := true, values := some { image := some "img-b" } }] }

def c5EntryA : DirEntry := { name := "a", isDir := true, values := some { image := some "img-a" } }

def c5EntryB : DirEntry := { name := "b", isDir := true, values := some { image := some "img-b" } }

def c8BadEntry : DirEntry := { name := "broken", isDir := true, values := none }

def resultC00 : ImageResult := { image := "a", high := 0, critical := 0, details := [] }

def resultC10 : ImageResult := { image := "b", high := 0, critical := 1, details := [] }

def resultC03 : ImageResult := { image := "c", high := 3, critical := 0, details := [] }

def resultC21 : ImageResult := { image := "d", high := 1, critical := 2, details := [] }

def wFileA : ScanFile := { name := "alpha.json", doc := none }

def wFileB : ScanFile :=
  { name := "beta.json", doc := some [{ vulnerabilities := [{ severity := some "HIGH" }] }] }

def c10Doc : ScanDoc :=
  some [{ vulnerabilities := [{ severity := some "HIGH" }, { severity := some "CRITICAL" },
    { severity := some "CRITICAL" }] }]

/-! ## Order lemmas for the Python string comparison -/

theorem charListLe_cons (a b : Char) (as bs : List Char) :
    charListLe (a :: as) (b :: bs) =
      if a < b then true else if b < a then false else charListLe as bs := rfl

theorem charListLe_total : ∀ as bs : List Char,
    charListLe as bs = true ∨ charListLe bs as = true
  | [], _ => Or.inl rfl
  | _ :: _, [] => Or.inr rfl
  | a :: as, b :: bs => by
    rcases lt_trichotomy a b with h | h | h
    · left; rw [charListLe_cons, if_pos h]
    · subst h
      rcases charListLe_total as bs with ih | ih
      · left; rw [charListLe_cons, if_neg (lt_irrefl a), if_neg (lt_irrefl a)]; exact ih
      · right; rw [charListLe_cons, if_neg (lt_irrefl a), if_neg (lt_irrefl a)]; exact ih
    · right; rw [charListLe_cons, if_pos h]

theorem charListLe_trans : ∀ as bs cs : List Char,
    charListLe as bs = true → charListLe bs cs = true → charListLe as cs = true
  | [], _, _ => fun _ _ => rfl
  | _ :: _, [], _ => fun h _ => Bool.noConfusion h
  | _ :: _, _ :: _, [] => fun _ h => Bool.noConfusion h
  | a :: as, b :: bs, c :: cs => by
    intro h1 h2
    rcases lt_trichotomy a b with hab | hab | hab
    · rcases lt_trichotomy b c with hbc | hbc | hbc
      · rw [charListLe_cons, if_pos (lt_trans hab hbc)]
      · subst hbc; rw [charListLe_cons, if_pos hab]
      · rw [charListLe_cons, if_neg (lt_asymm hbc), if_pos hbc] at h2
        exact Bool.noConfusion h2
    · subst hab
      rcases lt_trichotomy a c with hac | hac | hac
      · rw [charListLe_cons, if_pos hac]
      · subst hac
        rw [charListLe_cons, if_neg (lt_irrefl a), if_neg (lt_irrefl a)] at h1 h2 ⊢
        exact charListLe_trans as bs cs h1 h2
      · rw [charListLe_cons, if_neg (lt_asymm hac), if_pos hac] at h2
        exact Bool.noConfusion h2
    · rw [charListLe_cons, if_neg (lt_asymm hab), if_pos hab] at h1
      exact Bool.noConfusion h1

theorem charListLe_antisymm : ∀ as bs : List Char,
    charListLe as bs = true → charListLe bs as = true → as = bs
  | [], [] => fun _ _ => rfl
  | [], _ :: _ => fun _ h => Bool.noConfusion h
  | _ :: _, [] => fun h _ => Bool.noConfusion h
  | a :: as, b :: bs => by
    intro h1 h2
    rcases lt_trichotomy a b with hab | hab | hab
    · rw [charListLe_cons, if_neg (lt_asymm hab), if_pos hab] at h2
      exact Bool.noConfusion h2
    · subst hab
      rw [charListLe_cons, if_neg (lt_irrefl a), if_neg (lt_irrefl a)] at h1 h2
      exact congrArg (a :: .) (charListLe_antisymm as bs h1 h2)
    · rw [charListLe_cons, if_neg (lt_asymm hab), if_pos hab] at h1
      exact Bool.noConfusion h1

theorem strle_total (a b : String) : strle a b = true ∨ strle b a = true :=
  charListLe_total a.data b.data

theorem strle_trans {a b c : String} (h1 : strle a b = true) (h2 : strle b c = true) :
    strle a c = true :=
  charListLe_trans a.data b.data c.data h1 h2

theorem strle_antisymm {a b : String} (h1 : strle a b = true) (h2 : strle b a = true) :
    a = b := by
  have h := charListLe_antisymm a.data b.data h1 h2
  cases a; cases b; exact congrArg String.mk h

instance : IsTotal String pyLe := ⟨fun a b => strle_total a b⟩

instance : IsTrans String pyLe := ⟨fun _ _ _ h1 h2 => strle_trans h1 h2⟩

instance : IsTotal ScanFile fileLe := ⟨fun f g => strle_total f.name g.name⟩

instance : IsTrans ScanFile fileLe := ⟨fun _ _ _ h1 h2 => strle_trans h1 h2⟩

/-- Strict name comparison on scan files; two sorted lists of files that are
permutations of each other and strictly sorted are equal. -/
def fileLt (f g : ScanFile) : Prop := strle f.name g.name = true ∧ f.name ≠ g.name

instance : IsAntisymm ScanFile fileLt :=
  ⟨fun _ _ h1 h2 => absurd (strle_antisymm h1.1 h2.1) h1.2⟩

/-! ## The summary sort is a stable descending sort -/

instance : IsTotal ImageResult resGe :=
  ⟨fun x y => by unfold resGe pairLe resKey; omega⟩

instance : IsTrans ImageResult resGe :=
  ⟨fun x y z h1 h2 => by unfold resGe pairLe resKey at h1 h2 ⊢; omega⟩

theorem filter_key_orderedInsert (k : Nat × Nat) (a : ImageResult) :
    ∀ l : List ImageResult,
      (List.orderedInsert resGe a l).filter (fun x => decide (resKey x = k)) =
        if resKey a = k then a :: l.filter (fun x => decide (resKey x = k))
        else l.filter (fun x => decide (resKey x = k))
  | [] => by
    by_cases hk : resKey a = k <;> simp [List.orderedInsert, hk]
  | b :: l => by
    have ih := filter_key_orderedInsert k a l
    by_cases hab : resGe a b
    · rw [List.orderedInsert, if_pos hab]
      by_cases hk : resKey a = k <;> simp [List.filter_cons, hk]
    · rw [List.orderedInsert, if_neg hab]
      have hne : resKey a = k → (resKey b = k) → False := fun hak hbk =>
        hab (show pairLe (resKey b) (resKey a) by
          rw [hbk, hak]; exact Or.inr ⟨rfl, le_refl _⟩)
      by_cases hk : resKey a = k
      · have hb : ¬ (resKey b = k) := fun hbk => hne hk hbk
        simp [List.filter_cons, ih, hk, hb]
      · simp [List.filter_cons, ih, hk]

theorem filter_key_insertionSort (k : Nat × Nat) :
    ∀ l : List ImageResult,
      (List.insertionSort resGe l).filter (fun x => decide (resKey x = k)) =
        l.filter (fun x => decide (resKey x = k))
  | [] => rfl
  | a :: l => by
    rw [List.insertionSort, filter_key_orderedInsert k a (List.insertionSort resGe l)]
    by_cases hk : resKey a = k <;>
      simp [List.filter_cons, hk, filter_key_insertionSort k l]

/-! ## Sorting the file listing is listing-order independent -/

theorem sorted_strict_of_nodup {l : List ScanFile}
    (hs : List.Sorted fileLe l) (hn : (l.map ScanFile.name).Nodup) :
    List.Sorted fileLt l := by
  have hn2 : (l.map ScanFile.name).Pairwise (fun a b => a ≠ b) := hn
  rw [List.pairwise_map] at hn2
  exact (hs.and hn2).imp (fun h => ⟨h.1, h.2⟩)

theorem sortFiles_eq_of_perm {l1 l2 : List ScanFile} (hp : l1.Perm l2)
    (hn : (l1.map ScanFile.name).Nodup) :
    List.insertionSort fileLe l1 = List.insertionSort fileLe l2 := by
  have hs1 := List.sorted_insertionSort fileLe l1
  have hs2 := List.sorted_insertionSort fileLe l2
  have hperm : (List.insertionSort fileLe l1).Perm (List.insertionSort fileLe l2) :=
    (List.perm_insertionSort fileLe l1).trans (hp.trans (List.perm_insertionSort fileLe l2).symm)
  have hn1 : ((List.insertionSort fileLe l1).map ScanFile.name).Nodup :=
    (((List.perm_insertionSort fileLe l1).map ScanFile.name).nodup_iff).mpr hn
  have hn2 : ((List.insertionSort fileLe l2).map ScanFile.name).Nodup :=
    ((hperm.map ScanFile.name).nodup_iff).mp hn1
  exact List.eq_of_perm_of_sorted hperm
    (sorted_strict_of_nodup hs1 hn1) (sorted_strict_of_nodup hs2 hn2)

/-! ## Severity tally lemmas -/

theorem bump_cons (k : String) (n : Nat) (rest : List (String × Nat)) (s : String) :
    bump ((k, n) :: rest) s =
      if k = s then (k, n + 1) :: rest else (k, n) :: bump rest s := rfl

theorem bump_dictGet (d : List (String × Nat)) (s t : String) :
    dictGet (bump d s) t = if s = t then dictGet d t + 1 else dictGet d t := by
  induction d with
  | nil => by_cases h : s = t <;> simp [bump, dictGet, h]
  | cons p rest ih =>
    obtain ⟨k, n⟩ := p
    by_cases hks : k = s
    · subst hks
      by_cases hkt : k = t <;> simp [bump_cons, dictGet, hkt]
    · rw [bump_cons, if_neg hks]
      by_cases hst : s = t
      · subst hst
        simp [dictGet, hks, ih]
      · simp [dictGet, hst, ih]

theorem mem_keys_bump {d : List (String × Nat)} {s t : String}
    (h : t ∈ (bump d s).map Prod.fst) : t ∈ d.map Prod.fst ∨ t = s := by
  induction d with
  | nil => simp [bump] at h; exact Or.inr h
  | cons p rest ih =>
    obtain ⟨k, n⟩ := p
    by_cases hks : k = s
    · rw [bump_cons, if_pos hks] at h
      simp only [List.map_cons, List.mem_cons] at h ⊢
      exact Or.inl h
    · rw [bump_cons, if_neg hks] at h
      simp only [List.map_cons, List.mem_cons] at h ⊢
      rcases h with h | h
      · exact Or.inl (Or.inl h)
      · rcases ih h with h2 | h2
        · exact Or.inl (Or.inr h2)
        · exact Or.inr h2

theorem keys_nodup_bump {d : List (String × Nat)} {s : String}
    (h : (d.map Prod.fst).Nodup) : ((bump d s).map Prod.fst).Nodup := by
  induction d with
  | nil => simp [bump]
  | cons p rest ih =>
    obtain ⟨k, n⟩ := p
    simp only [List.map_cons, List.nodup_cons] at h
    by_cases hks : k = s
    · rw [bump_cons, if_pos hks]
      simp only [List.map_cons, List.nodup_cons]
      exact ⟨h.1, h.2⟩
    · rw [bump_cons, if_neg hks]
      simp only [List.map_cons, List.nodup_cons]
      refine ⟨fun hmem => ?_, ih h.2⟩
      rcases mem_keys_bump hmem with h2 | h2
      · exact h.1 h2
      · exact hks h2

theorem dictGet_of_mem {d : List (String × Nat)} {s : String} {n : Nat}
    (hmem : (s, n) ∈ d) (hnd : (d.map Prod.fst).Nodup) : dictGet d s = n := by
  induction d with
  | nil => simp at hmem
  | cons p rest ih =>
    obtain ⟨k, m⟩ := p
    simp only [List.map_cons, List.nodup_cons] at hnd
    rcases List.mem_cons.mp hmem with h | h
    · rw [show k = s from (Prod.mk.injEq s n k m |>.mp h).1.symm,
        show m = n from (Prod.mk.injEq s n k m |>.mp h).2.symm]
      simp [dictGet]
    · have hks : k ≠ s := fun he => hnd.1 (by rw [he]; exact List.mem_map_of_mem Prod.fst h)
      rw [dictGet, if_neg hks]
      exact ih h hnd.2

theorem analyzeStep_fst (acc : Nat × Nat × List (String × Nat)) (v : Vuln) :
    (analyzeStep acc v).1 = if sevLabel v = "HIGH" then acc.1 + 1 else acc.1 := by
  by_cases h : sevLabel v = "HIGH"
  · simp [analyzeStep, h]
  · by_cases h2 : sevLabel v = "CRITICAL" <;> simp [analyzeStep, h, h2]

theorem analyzeStep_snd (acc : Nat × Nat × List (String × Nat)) (v : Vuln) :
    (analyzeStep acc v).2.1 = if sevLabel v = "CRITICAL" then acc.2.1 + 1 else acc.2.1 := by
  by_cases h : sevLabel v = "HIGH"
  · have hne : sevLabel v ≠ "CRITICAL" := by rw [h]; decide
    simp [analyzeStep, h, hne]
  · by_cases h2 : sevLabel v = "CRITICAL" <;> simp [analyzeStep, h, h2]

theorem analyzeStep_details (acc : Nat × Nat × List (String × Nat)) (v : Vuln) :
    (analyzeStep acc v).2.2 = bump acc.2.2 (sevLabel v) := by
  by_cases h : sevLabel v = "HIGH"
  · simp [analyzeStep, h]
  · by_cases h2 : sevLabel v = "CRITICAL" <;> simp [analyzeStep, h, h2]

theorem foldl_analyzeStep_fst (vs : List Vuln) :
    ∀ acc : Nat × Nat × List (String × Nat),
      (vs.foldl analyzeStep acc).1 = acc.1 + vs.countP (fun v => sevLabel v == "HIGH") := by
  induction vs with
  | nil => intro acc; simp
  | cons v vs ih =>
    intro acc
    rw [List.foldl_cons, ih, analyzeStep_fst, List.countP_cons]
    by_cases h : sevLabel v = "HIGH" <;> simp [h] <;> omega

theorem foldl_analyzeStep_snd (vs : List Vuln) :
    ∀ acc : Nat × Nat × List (String × Nat),
      (vs.foldl analyzeStep acc).2.1 = acc.2.1 + vs.countP (fun v => sevLabel v == "CRITICAL") := by
  induction vs with
  | nil => intro acc; simp
  | cons v vs ih =>
    intro acc
    rw [List.foldl_cons, ih, analyzeStep_snd, List.countP_cons]
    by_cases h : sevLabel v = "CRITICAL" <;> simp [h] <;> omega

theorem foldl_analyzeStep_dict (vs : List Vuln) :
    ∀ (acc : Nat × Nat × List (String × Nat)) (t : String),
      dictGet (vs.foldl analyzeStep acc).2.2 t =
        dictGet acc.2.2 t + vs.countP (fun v => sevLabel v == t) := by
  induction vs with
  | nil => intro acc t; simp
  | cons v vs ih =>
    intro acc t
    rw [List.foldl_cons, ih, analyzeStep_details, bump_dictGet, List.countP_cons]
    by_cases h : sevLabel v = t <;> simp [h] <;> omega

theorem foldl_analyzeStep_keys_nodup (vs : List Vuln) :
    ∀ acc : Nat × Nat × List (String × Nat),
      ((acc.2.2).map Prod.fst).Nodup →
      (((vs.foldl analyzeStep acc).2.2).map Prod.fst).Nodup := by
  induction vs with
  | nil => intro acc h; exact h
  | cons v vs ih =>
    intro acc h
    rw [List.foldl_cons]
    apply ih
    rw [analyzeStep_details]
    exact keys_nodup_bump h

/-! ## A subchart without values or tag contributes nothing -/

theorem subchartImages_skip_cons (parent : ParentValues) (registry : String)
    (e : DirEntry) (post : List DirEntry)
    (he : e.values = none ∨ lookupTag parent e.name = none) :
    subchartImages parent registry (e :: post) = subchartImages parent registry post := by
  rcases he with h | h
  · simp [subchartImages, h]
  · rcases hv : e.values with _ | v
    · simp [subchartImages, hv]
    · rcases hi : v.image with _ | img
      · simp [subchartImages, hv, hi]
      · simp [subchartImages, hv, hi, h]

theorem subchartImages_cons_congr (parent : ParentValues) (registry : String)
    (f : DirEntry) {l1 l2 : List DirEntry}
    (h : subchartImages parent registry l1 = subchartImages parent registry l2) :
    subchartImages parent registry (f :: l1) = subchartImages parent registry (f :: l2) := by
  simp only [subchartImages]
  rw [h]

theorem subchartImages_skip (parent : ParentValues) (registry : String)
    (e : DirEntry) (he : e.values = none ∨ lookupTag parent e.name = none) :
    ∀ pre post : List DirEntry,
      subchartImages parent registry (pre ++ e :: post) =
        subchartImages parent registry (pre ++ post)
  | [], post => by simpa using subchartImages_skip_cons parent registry e post he
  | f :: pre, post => by
    simp only [List.cons_append]
    exact subchartImages_cons_congr parent registry f
      (subchartImages_skip parent registry e he pre post)

/-! ## Claims -/

/-- Claim C1 counterexample: as stated the claim is false - invoked on a
missing scan-results directory the Report Generator CLI exits with code 0
(`main` prints the error string returned by `generate_report` and never calls
`sys.exit`), not 1. -/
theorem C1_counterexample :
    (generate_report_main ["generate-report.py", "/missing"] ⟨false, []⟩ ("TS")).exitCode = 0 ∧
    ¬ (generate_report_main ["generate-report.py", "/missing"] ⟨false, []⟩ ("TS")).exitCode = 1 := by
  decide

/-- Claim C1, amended: on a scan-results directory path that does not exist
(with the correct argument count) the Report Generator CLI exits with code 0
and prints the `does not exist` error message on stdout. -/
theorem C1_theorem (argv : List String) (fs : ReportFs) (now : String)
    (hargs : argv.length = 2) (hdir : fs.dirExists = false) :
    (generate_report_main argv fs now).exitCode = 0 ∧
    (generate_report_main argv fs now).stdout =
      ["Error: Directory " ++ argv.getD 1 "" ++ " does not exist"] := by
  have h2 : ¬ (argv.length ≠ 2) := by omega
  unfold generate_report_main
  rw [if_neg h2]
  unfold generate_report
  rw [if_pos hdir]
  exact ⟨rfl, rfl⟩

/-- Claim C1 witness: the amended theorem applied to a concrete missing
directory. -/
theorem C1_witness :
    (["generate-report.py", "/missing"] : List String).length = 2 ∧
    (⟨false, []⟩ : ReportFs).dirExists = false ∧
    ((generate_report_main ["generate-report.py", "/missing"] ⟨false, []⟩ ("TS")).exitCode = 0 ∧
      (generate_report_main ["generate-report.py", "/missing"] ⟨false, []⟩ ("TS")).stdout =
        ["Error: Directory " ++ (["generate-report.py", "/missing"] : List String).getD 1 ""
          ++ " does not exist"]) :=
  ⟨rfl, rfl, C1_theorem ["generate-report.py", "/missing"] ⟨false, []⟩ ("TS") rfl rfl⟩

/-- Claim C2 counterexample: with an empty configuration the infrastructure
list is `postgres:13, curlimages/curl:latest, docker.io/erlang:26`, which is
not lexicographically sorted - refuting the claim that both output lists are
always sorted. -/
theorem C2_counterexample :
    extract_infra_images emptyParent =
      ["postgres:13", "curlimages/curl:latest", "docker.io/erlang:26"] ∧
    ¬ List.Sorted pyLe (extract_infra_images emptyParent) := by
  constructor
  · rfl
  · decide

/-- Claim C2, amended: the application-image list is lexicographically sorted
for every input configuration; the infrastructure-image list is returned in
construction order and is not sorted in general (see the counterexample). -/
theorem C2_theorem (chart : ChartDir) (parent : ParentValues) (registry : String) :
    List.Sorted pyLe (extract_app_images_from_charts chart parent registry) := by
  unfold extract_app_images_from_charts
  by_cases h : chart.chartsDirExists = false
  · rw [if_pos h]; exact List.sorted_nil
  · rw [if_neg h]; exact List.sorted_insertionSort pyLe _

/-- Claim C3 counterexample: when the global configuration has a non-empty
`agent` section that declares no `defaultImage`, the extractor appends no
agent image at all - refuting "appends exactly one default agent image". -/
theorem C3_counterexample :
    extract_infra_images agentNoDefaultParent = ["postgres:13", "curlimages/curl:latest"] ∧
    infraAgentImages agentNoDefaultParent.global = [] := by
  decide

/-- Claim C3, amended: the extractor appends at most one default agent image:
the hardcoded default when the `agent` section is absent or empty, the
declared `defaultImage` when the section declares a non-empty one, and no
agent image when the section is non-empty but its `defaultImage` is missing
or empty. -/
theorem C3_theorem (p : ParentValues) :
    (p.global.agent = [] →
      extract_infra_images p = infraBaseImages p.global ++ ["docker.io/erlang:26"]) ∧
    (∀ s, lookupStr p.global.agent ("defaultImage") = some s → s ≠ "" →
      extract_infra_images p = infraBaseImages p.global ++ [s]) ∧
    (p.global.agent ≠ [] → lookupStr p.global.agent ("defaultImage") = none →
      extract_infra_images p = infraBaseImages p.global) ∧
    (lookupStr p.global.agent ("defaultImage") = some "" →
      extract_infra_images p = infraBaseImages p.global) := by
  refine ⟨?_, ?_, ?_, ?_⟩
  · intro h
    unfold extract_infra_images infraAgentImages
    rw [h]
    rfl
  · intro s hs hne
    have hagent : ¬ (p.global.agent.isEmpty = true) := by
      intro h0
      rw [List.isEmpty_iff.mp h0] at hs
      simp [lookupStr] at hs
    unfold extract_infra_images infraAgentImages
    rw [if_neg hagent, hs]
    simp [hne]
  · intro hne hnone
    have hagent : ¬ (p.global.agent.isEmpty = true) := by
      simp [List.isEmpty_iff, hne]
    unfold extract_infra_images infraAgentImages
    rw [if_neg hagent, hnone]
    simp
  · intro hs
    have hagent : ¬ (p.global.agent.isEmpty = true) := by
      intro h0
      rw [List.isEmpty_iff.mp h0] at hs
      simp [lookupStr] at hs
    unfold extract_infra_images infraAgentImages
    rw [if_neg hagent, hs]
    simp

/-- Claim C3 witness: the amended theorem applied to the empty configuration
(no agent section, hence the hardcoded default). -/
theorem C3_witness :
    (emptyParent.global.agent = []) ∧
    extract_infra_images emptyParent =
      infraBaseImages emptyParent.global ++ ["docker.io/erlang:26"] :=
  ⟨rfl, (C3_theorem emptyParent).1 rfl⟩

/-- Claim C5: for the concrete parent configuration with components `a`, `b`
(tags `1.0`, `2.0`) and subchart directories declaring images `img-a`,
`img-b`, the application-image output is exactly the two expected references,
in lexicographic order. -/
theorem C5_theorem :
    extract_app_images_from_charts c5Chart c5Parent ("registry") =
      ["registry/img-a:1.0", "registry/img-b:2.0"] := by
  decide

/-- Claim C7: with the credential environment variable absent, the Report
Fetcher exits with code 1 and issues no HTTP request. -/
theorem C7_theorem (token : Option String) (workflow_id output_file : String)
    (resp : HttpResponse) (h : token = none) :
    (download_report token workflow_id output_file resp).exitCode = 1 ∧
    (download_report token workflow_id output_file resp).requests = 0 := by
  subst h
  exact ⟨rfl, rfl⟩

/-- Claim C7 witness: the theorem applied at a concrete workflow id, output
file and would-be response. -/
theorem C7_witness :
    ((none : Option String) = none) ∧
    (download_report none ("wf-1") ("REPORT.md") ⟨200, "report body"⟩).exitCode = 1 ∧
    (download_report none ("wf-1") ("REPORT.md") ⟨200, "report body"⟩).requests = 0 :=
  ⟨rfl, (C7_theorem none ("wf-1") ("REPORT.md") ⟨200, "report body"⟩ rfl).1,
    (C7_theorem none ("wf-1") ("REPORT.md") ⟨200, "report body"⟩ rfl).2⟩

/-- Claim C4 counterexample: the Report Fetcher's missing-token message is
printed by a plain `print`, i.e. on standard output - its standard error
stream stays empty, refuting the claim that the message goes to standard
error. -/
theorem C4_counterexample :
    (download_report none ("wf-1") ("REPORT.md") ⟨200, ""⟩).stderr = [] ∧
    (download_report none ("wf-1") ("REPORT.md") ⟨200, ""⟩).stdout =
      ["Error: SEMAPHORE_API_TOKEN environment variable not set"] := by
  decide

/-- Claim C4, amended: every script exits non-zero on a precondition failure
(missing required input or credential) before attempting its main operation;
the Image Extractor and Report Generator report such failures on standard
error, but the Report Fetcher's missing-token message is written to standard
output and its stderr stays empty. -/
theorem C4_theorem :
    (∀ workflow_id output_file resp,
      (download_report none workflow_id output_file resp).exitCode = 1 ∧
      (download_report none workflow_id output_file resp).requests = 0 ∧
      (download_report none workflow_id output_file resp).stdout =
        ["Error: SEMAPHORE_API_TOKEN environment variable not set"] ∧
      (download_report none workflow_id output_file resp).stderr = []) ∧
    (∀ argv fs, argv.length = 2 → fs.pathExists = false →
      (extract_main argv fs).exitCode = 1 ∧
      (extract_main argv fs).stderr ≠ [] ∧ (extract_main argv fs).stdout = []) ∧
    (∀ argv fs, argv.length = 2 → fs.pathExists = true → fs.valuesYaml = none →
      (extract_main argv fs).exitCode = 1 ∧
      (extract_main argv fs).stderr ≠ [] ∧ (extract_main argv fs).stdout = []) ∧
    (∀ argv (fs : ReportFs) now, argv.length ≠ 2 →
      (generate_report_main argv fs now).exitCode = 1 ∧
      (generate_report_main argv fs now).stderr ≠ [] ∧
      (generate_report_main argv fs now).stdout = []) := by
  refine ⟨?_, ?_, ?_, ?_⟩
  · intro wf out resp; exact ⟨rfl, rfl, rfl, rfl⟩
  · intro argv fs h1 h2
    simp [extract_main, h1, h2]
  · intro argv fs h1 h2 h3
    simp [extract_main, h1, h2, h3]
  · intro argv fs now h
    simp [generate_report_main, h]

/-- Claim C4 witness: the amended theorem applied to the Image Extractor run
on a missing chart path. -/
theorem C4_witness :
    ((["extract-images.py", "/nope"] : List String).length = 2) ∧
    ((⟨false, none, ⟨false, []⟩⟩ : ChartFs).pathExists = false) ∧
    ((extract_main ["extract-images.py", "/nope"] ⟨false, none, ⟨false, []⟩⟩).exitCode = 1 ∧
      (extract_main ["extract-images.py", "/nope"] ⟨false, none, ⟨false, []⟩⟩).stderr ≠ [] ∧
      (extract_main ["extract-images.py", "/nope"] ⟨false, none, ⟨false, []⟩⟩).stdout = []) :=
  ⟨rfl, rfl, C4_theorem.2.1 ["extract-images.py", "/nope"] ⟨false, none, ⟨false, []⟩⟩ rfl rfl⟩

/-- Claim C6: the summary sort used by the Report Generator is a permutation
of its input, sorted descending by the key pair (critical, high), and stable
(entries with any fixed key keep their collection order); on the concrete
pairs (0,0), (1,0), (0,3), (2,1) it renders the order (2,1), (1,0), (0,3),
(0,0). -/
theorem C6_theorem :
    (∀ l : List ImageResult, (sortImageResults l).Perm l) ∧
    (∀ l : List ImageResult, List.Sorted resGe (sortImageResults l)) ∧
    (∀ (l : List ImageResult) (k : Nat × Nat),
      (sortImageResults l).filter (fun x => decide (resKey x = k)) =
        l.filter (fun x => decide (resKey x = k))) ∧
    sortImageResults [resultC00, resultC10, resultC03, resultC21] =
      [resultC21, resultC10, resultC03, resultC00] :=
  ⟨fun l => List.perm_insertionSort resGe l,
   fun l => List.sorted_insertionSort resGe l,
   fun l k => filter_key_insertionSort k l,
   by decide⟩

/-- Claim C8: a subchart directory with no values file, or one whose parent
entry yields no imageTag, contributes zero images, and the remaining
subcharts are still processed - dropping such an entry anywhere in the
listing leaves both the subchart loop output and the final application-image
output unchanged. -/
theorem C8_theorem (parent : ParentValues) (registry : String) (e : DirEntry)
    (pre post : List DirEntry)
    (he : e.values = none ∨ lookupTag parent e.name = none) :
    subchartImages parent registry (pre ++ e :: post) =
      subchartImages parent registry (pre ++ post) ∧
    extract_app_images_from_charts ⟨true, pre ++ e :: post⟩ parent registry =
      extract_app_images_from_charts ⟨true, pre ++ post⟩ parent registry := by
  have h := subchartImages_skip parent registry e he pre post
  refine ⟨h, ?_⟩
  simp [extract_app_images_from_charts, h]

/-- Claim C8 witness: the theorem applied to a subchart without a values file
standing between the two configured subcharts of the C5 fixture. -/
theorem C8_witness :
    (c8BadEntry.values = none ∨ lookupTag c5Parent c8BadEntry.name = none) ∧
    subchartImages c5Parent ("registry") ([c5EntryA] ++ c8BadEntry :: [c5EntryB]) =
      subchartImages c5Parent ("registry") ([c5EntryA] ++ [c5EntryB]) :=
  ⟨Or.inl rfl,
    (C8_theorem c5Parent ("registry") c8BadEntry [c5EntryA] [c5EntryB] (Or.inl rfl)).1⟩

/-- Claim C9: the Report Generator is deterministic - two runs over identical
directory contents (the same scan files, listed by the glob in any order)
with an identical clock reading produce equal Markdown strings. -/
theorem C9_theorem (e : Bool) (l1 l2 : List ScanFile) (results_dir now : String)
    (hperm : l1.Perm l2) (hnodup : (l1.map ScanFile.name).Nodup) :
    generate_report ⟨e, l1⟩ results_dir now = generate_report ⟨e, l2⟩ results_dir now := by
  have hsort := sortFiles_eq_of_perm hperm hnodup
  cases e
  · rfl
  · rcases l1 with _ | ⟨f, l1t⟩
    · rw [hperm.symm.eq_nil]
    · rcases l2 with _ | ⟨g, l2t⟩
      · exact absurd hperm.length_eq (by simp)
      · simp only [generate_report, List.isEmpty_cons, hsort]

/-- Claim C9 witness: the theorem applied to a two-file directory listed in
the two possible orders. -/
theorem C9_witness :
    ([wFileA, wFileB].Perm [wFileB, wFileA]) ∧
    ([wFileA, wFileB].map ScanFile.name).Nodup ∧
    generate_report ⟨true, [wFileA, wFileB]⟩ ("results") ("2026-10-12 00:00:00 UTC") =
      generate_report ⟨true, [wFileB, wFileA]⟩ ("results") ("2026-10-12 00:00:00 UTC") :=
  ⟨List.Perm.swap wFileB wFileA [], by decide,
   C9_theorem true [wFileA, wFileB] [wFileB, wFileA] ("results") ("2026-10-12 00:00:00 UTC")
     (List.Perm.swap wFileB wFileA []) (by decide)⟩

/-- Claim C10: the triple returned by `analyze_vulnerabilities` is internally
consistent - the HIGH entry of the severity map (0 when absent) equals the
returned high count, the CRITICAL entry equals the returned critical count,
and every entry of the map counts exactly the findings carrying its label. -/
theorem C10_theorem (doc : ScanDoc) :
    dictGet (analyze_vulnerabilities doc).2.2 ("HIGH") = (analyze_vulnerabilities doc).1 ∧
    dictGet (analyze_vulnerabilities doc).2.2 ("CRITICAL") = (analyze_vulnerabilities doc).2.1 ∧
    (∀ s n, (s, n) ∈ (analyze_vulnerabilities doc).2.2 → n = countSev doc s) := by
  rcases doc with _ | results
  · exact ⟨rfl, rfl, fun s n h => absurd h (List.not_mem_nil _)⟩
  · have hana : analyze_vulnerabilities (some results) =
        (docFindings (some results)).foldl analyzeStep (0, 0, []) := rfl
    refine ⟨?_, ?_, ?_⟩
    · rw [hana, foldl_analyzeStep_dict (docFindings (some results)) (0, 0, []) ("HIGH"),
        foldl_analyzeStep_fst (docFindings (some results)) (0, 0, [])]
      rfl
    · rw [hana, foldl_analyzeStep_dict (docFindings (some results)) (0, 0, []) ("CRITICAL"),
        foldl_analyzeStep_snd (docFindings (some results)) (0, 0, [])]
      rfl
    · intro s n hmem
      rw [hana] at hmem
      have hnd : ((((docFindings (some results)).foldl analyzeStep (0, 0, [])).2.2).map
          Prod.fst).Nodup :=
        foldl_analyzeStep_keys_nodup (docFindings (some results)) (0, 0, []) (by simp)
      have hd := dictGet_of_mem hmem hnd
      rw [foldl_analyzeStep_dict (docFindings (some results)) (0, 0, []) s] at hd
      simpa [countSev, dictGet] using hd.symm

/-- Claim C10 witness: the theorem applied to a document with one HIGH and
two CRITICAL findings. -/
theorem C10_witness :
    (("CRITICAL", 2) ∈ (analyze_vulnerabilities c10Doc).2.2) ∧
    2 = countSev c10Doc ("CRITICAL") :=
  ⟨by decide, (C10_theorem c10Doc).2.2 ("CRITICAL") 2 (by decide)⟩
